import Mathlib

/-
Verification of the TransactionSim Broadleaf trace generator
(`broadleaf.py`): a shallow embedding of the `Transaction` access log
and of the seven generator templates, together with proofs of the
structural properties of the traces they produce.
-/

namespace TransactionSim

/-- The kind of a single key access: a read or a write. -/
inductive Kind where
  | Read
  | Write
deriving DecidableEq, Repr

/-- A single access event: a kind together with the accessed key string. -/
structure Op where
  kind : Kind
  key : String
deriving DecidableEq, Repr

/-- Modelled from the spec: the `Transaction` class lives in the repository's
`transaction` module, which is not part of the sources at hand (only its
importer `broadleaf.py` is).  Per the spec's AccessLog contract it is an
ordered, append-only record of typed key accesses, created empty and grown
one operation per `append_read` / `append_write` call. -/
structure Transaction where
  ops : List Op
deriving DecidableEq, Repr

/-- Modelled from the spec: `appendRead(key)` "appends a Read operation with
the given key; side effect: sequence grows by one element".  The Python
method mutates in place; the embedding passes the state explicitly. -/
def Transaction.append_read (t : Transaction) (key : String) : Transaction :=
  ⟨t.ops ++ [⟨Kind.Read, key⟩]⟩

/-- Modelled from the spec: `appendWrite(key)` appends a Write operation with
the given key; same contract shape as `appendRead`. -/
def Transaction.append_write (t : Transaction) (key : String) : Transaction :=
  ⟨t.ops ++ [⟨Kind.Write, key⟩]⟩

/-- Modelled from the spec: `render()` "produces a sequence of strings, one
per operation, each formatted as `<r|w>-<key>` (lowercase r for Read, w for
Write), in insertion order".  The format is corroborated by the example
output reproduced in `broadleaf.py`'s module docstring. -/
def Transaction.render (t : Transaction) : List String :=
  t.ops.map (fun op =>
    (match op.kind with
      | Kind.Read => "r-"
      | Kind.Write => "w-") ++ op.key)

/-- Template 1 (`broadleaf.py` lines 67-90), cart update.  The request tuple
carries `(cart_id, order_id)`; `response` and `chain` are accepted but never
inspected, so they are embedded polymorphically. -/
def do_filter_internal_unless_ignored {β γ : Type} (request : Nat × Nat)
    (response : β) (chain : γ) : Transaction :=
  let cart_id := request.1
  let order_id := request.2
  let t : Transaction := ⟨[]⟩
  let t := t.append_read ("cart(" ++ toString cart_id ++ ")")
  let t := t.append_write ("order(" ++ toString order_id ++ ")")
  t

/-- Template 2 (`broadleaf.py` lines 115-141), rate item.  The `type`
argument is accepted but never inspected, so it is embedded
polymorphically. -/
def rate_item {α : Type} (item_id : Nat) (type : α) (customer : Nat)
    (rating : Nat) : Transaction :=
  let t : Transaction := ⟨[]⟩
  let t := t.append_read ("summary(" ++ toString item_id ++ ")")
  let t := t.append_read ("detail(" ++ toString customer ++ ")")
  let t := t.append_write
    ("detail(" ++ toString customer ++ ")/rating(" ++ toString rating ++ ")")
  let t := t.append_write
    ("summary(" ++ toString item_id ++ ")/rating(" ++ toString rating ++ ")")
  t

/-- Template 3 (`broadleaf.py` lines 164-184), order payment.  The sampled
amount is only ever interpolated into the key string, so the embedding is
parametric in any type with a string rendering; the Python tuple
`(order, customer_payment)` renders as `(a, b)`. -/
def create_order_payment_from_customer_payment {α : Type} [ToString α]
    (order : Nat) (customer_payment : Nat) (amount : α) : Transaction :=
  let t : Transaction := ⟨[]⟩
  let t := t.append_write ("amount(" ++ toString amount ++ ")")
  let t := t.append_write "unconfirmed type"
  let t := t.append_write
    ("orderPayment((" ++ toString order ++ ", " ++ toString customer_payment ++ "))")
  let t := t.append_write ("customerPayment(" ++ toString customer_payment ++ ")")
  t

/-- Template 4 (`broadleaf.py` lines 205-222), save offer code. -/
def save_offer_code (offer_code : Nat) : Transaction :=
  let t : Transaction := ⟨[]⟩
  let t := t.append_write ("offerCode(" ++ toString offer_code ++ ")")
  let t := t.append_write ("offer(" ++ toString offer_code ++ ")")
  t

/-- Template 5 (`broadleaf.py` lines 240-254), look up offer by code. -/
def lookup_offer_by_code (code : Nat) : Transaction :=
  let t : Transaction := ⟨[]⟩
  let t := t.append_read ("offer(" ++ toString code ++ ")")
  t

/-- Template 6 (`broadleaf.py` lines 272-295), find next id.  The source
draws `np.random.choice(2)` (uniform on 0 or 1) and appends the extra write
when the draw equals 1; following the spec's design note the Bernoulli draw
is injected as the explicit `coin` parameter.  `batch_size` is accepted but
never inspected, so it is embedded polymorphically. -/
def find_next_id {β : Type} (id_type : Nat) (batch_size : β) (coin : Nat) :
    Transaction :=
  let t : Transaction := ⟨[]⟩
  let t := t.append_read ("id(" ++ toString id_type ++ ")")
  let t := if coin = 1 then t.append_write ("id(" ++ toString id_type ++ ")") else t
  let t := t.append_write ("id(" ++ toString id_type ++ ")")
  t

/-- Template 7 (`broadleaf.py` lines 313-333), decrement SKU: for each sku
id in the given order, a read then a write of `quantity(sku_id)`.  The
`context` argument is accepted but never inspected, so it is embedded
polymorphically. -/
def decrement_sku {γ : Type} (sku_quantities : List Nat) (context : γ) :
    Transaction :=
  sku_quantities.foldl
    (fun t sku_id =>
      (t.append_read ("quantity(" ++ toString sku_id ++ ")")).append_write
        ("quantity(" ++ toString sku_id ++ ")"))
    ⟨[]⟩

/-- Harness entry point (`broadleaf.py` lines 335-348): runs
`decrement_sku` once per loop iteration of `range(num_transactions)`.
The per-iteration randomness (`np.random.choice(100, 4)`) is embedded as
the explicit `sample` input; `range(n)` is empty for non-positive `n`,
which `Int.toNat` reproduces. -/
def decrement_SKU_sim (num_transactions : Int) (sample : Nat → List Nat) :
    List Transaction :=
  (List.range num_transactions.toNat).map (fun i => decrement_sku (sample i) ())

/-! ## Helper lemmas -/

theorem append_read_ops (t : Transaction) (k : String) :
    (t.append_read k).ops = t.ops ++ [⟨Kind.Read, k⟩] := rfl

theorem append_write_ops (t : Transaction) (k : String) :
    (t.append_write k).ops = t.ops ++ [⟨Kind.Write, k⟩] := rfl

/-- The operations accumulated by `decrement_sku`, as a flat map of
read/write pairs over the sku batch. -/
theorem decrement_sku_ops {γ : Type} (l : List Nat) (context : γ) :
    (decrement_sku l context).ops =
      l.flatMap (fun s =>
        [⟨Kind.Read, "quantity(" ++ toString s ++ ")"⟩,
         ⟨Kind.Write, "quantity(" ++ toString s ++ ")"⟩]) := by
  have main : ∀ (l : List Nat) (t : Transaction),
      (l.foldl
        (fun t sku_id =>
          (t.append_read ("quantity(" ++ toString sku_id ++ ")")).append_write
            ("quantity(" ++ toString sku_id ++ ")"))
        t).ops =
      t.ops ++ l.flatMap (fun s =>
        [⟨Kind.Read, "quantity(" ++ toString s ++ ")"⟩,
         ⟨Kind.Write, "quantity(" ++ toString s ++ ")"⟩]) := by
    intro l
    induction l with
    | nil => intro t; simp
    | cons a tl ih =>
      intro t
      rw [List.foldl_cons, ih]
      simp [Transaction.append_read, Transaction.append_write,
        List.flatMap_cons, List.append_assoc]
  simpa using main l ⟨[]⟩

/-- Indexing into a flat map of two-element blocks: the even positions hold
the first component, the odd positions the second, following the order of
the underlying list. -/
theorem bind_pair_getElem {α β : Type} (f g : α → β) (l : List α) :
    ∀ i : Nat,
      (l.flatMap fun s => [f s, g s])[2 * i]? = l[i]?.map f ∧
      (l.flatMap fun s => [f s, g s])[2 * i + 1]? = l[i]?.map g := by
  induction l with
  | nil => intro i; simp
  | cons a tl ih =>
    intro i
    cases i with
    | zero => simp
    | succ j =>
      have h := ih j
      rw [Nat.mul_succ]
      constructor
      · simpa [List.flatMap_cons, List.getElem?_cons_succ] using h.1
      · simpa [List.flatMap_cons, List.getElem?_cons_succ] using h.2

/-- A flat map of two-element blocks has twice the length of the
underlying list. -/
theorem flatMap_pair_length {α β : Type} (f g : α → β) (l : List α) :
    (l.flatMap fun s => [f s, g s]).length = 2 * l.length := by
  induction l with
  | nil => rfl
  | cons a tl ih =>
    simp only [List.flatMap_cons, List.cons_append, List.nil_append,
      List.length_cons, ih]
    omega

/-! ## Claim theorems -/

/-- Claim C1: for every list of sku identifiers, `decrement_sku` returns a
trace of length exactly `2 * n` whose operations alternate read, write:
the `2*i`-th operation is a read and the `2*i+1`-th a write, both keyed
`quantity(sku_id_i)`, following the order of the input list. -/
theorem decrement_sku_trace {γ : Type} (l : List Nat) (context : γ) :
    (decrement_sku l context).ops.length = 2 * l.length ∧
    ∀ i : Nat,
      ((decrement_sku l context).ops)[2 * i]? =
        l[i]?.map (fun s => ⟨Kind.Read, "quantity(" ++ toString s ++ ")"⟩) ∧
      ((decrement_sku l context).ops)[2 * i + 1]? =
        l[i]?.map (fun s => ⟨Kind.Write, "quantity(" ++ toString s ++ ")"⟩) := by
  rw [decrement_sku_ops]
  exact ⟨flatMap_pair_length _ _ l, bind_pair_getElem _ _ l⟩

/-- Claim C2: with the Bernoulli coin explicit, `find_next_id` produces the
kind sequence read, write, write when the coin is 1 and read, write when
the coin is 0, every operation keyed `id(id_type)`. -/
theorem find_next_id_trace {β : Type} (id_type : Nat) (batch_size : β) :
    (find_next_id id_type batch_size 1).ops =
      [⟨Kind.Read, "id(" ++ toString id_type ++ ")"⟩,
       ⟨Kind.Write, "id(" ++ toString id_type ++ ")"⟩,
       ⟨Kind.Write, "id(" ++ toString id_type ++ ")"⟩] ∧
    (find_next_id id_type batch_size 0).ops =
      [⟨Kind.Read, "id(" ++ toString id_type ++ ")"⟩,
       ⟨Kind.Write, "id(" ++ toString id_type ++ ")"⟩] :=
  ⟨rfl, rfl⟩

/-- Claim C3: `create_order_payment_from_customer_payment` emits no reads
and exactly four writes in fixed order: the amount key, the fixed sentinel
status key, the compound `orderPayment` key and the `customerPayment` key,
the latter two sharing the payment identifier. -/
theorem create_order_payment_trace {α : Type} [ToString α]
    (order : Nat) (customer_payment : Nat) (amount : α) :
    (create_order_payment_from_customer_payment order customer_payment amount).ops =
      [⟨Kind.Write, "amount(" ++ toString amount ++ ")"⟩,
       ⟨Kind.Write, "unconfirmed type"⟩,
       ⟨Kind.Write, "orderPayment((" ++ toString order ++ ", " ++
          toString customer_payment ++ "))"⟩,
       ⟨Kind.Write, "customerPayment(" ++ toString customer_payment ++ ")"⟩] ∧
    (create_order_payment_from_customer_payment order customer_payment amount).ops.map
        Op.kind = [Kind.Write, Kind.Write, Kind.Write, Kind.Write] :=
  ⟨rfl, rfl⟩

/-- Claim C4: `rate_item` returns exactly four operations in the fixed
order read-summary, read-detail, write-detail, write-summary, with the
detail read/write pair sharing the customer identifier, the summary
read/write pair sharing the item identifier, and both writes carrying the
nested rating qualifier. -/
theorem rate_item_trace {α : Type} (item_id : Nat) (type : α)
    (customer : Nat) (rating : Nat) :
    (rate_item item_id type customer rating).ops =
      [⟨Kind.Read, "summary(" ++ toString item_id ++ ")"⟩,
       ⟨Kind.Read, "detail(" ++ toString customer ++ ")"⟩,
       ⟨Kind.Write, "detail(" ++ toString customer ++ ")/rating(" ++
          toString rating ++ ")"⟩,
       ⟨Kind.Write, "summary(" ++ toString item_id ++ ")/rating(" ++
          toString rating ++ ")"⟩] :=
  rfl

/-- Claim C5: `do_filter_internal_unless_ignored` returns exactly one read
of `cart(A)` followed by one write of `order(B)`; with cart 30 and order 8
the rendered trace is exactly `["r-cart(30)", "w-order(8)"]`. -/
theorem do_filter_trace {β γ : Type} (cart_id order_id : Nat)
    (response : β) (chain : γ) :
    (do_filter_internal_unless_ignored (cart_id, order_id) response chain).ops =
      [⟨Kind.Read, "cart(" ++ toString cart_id ++ ")"⟩,
       ⟨Kind.Write, "order(" ++ toString order_id ++ ")"⟩] ∧
    (do_filter_internal_unless_ignored (30, 8) () ()).render =
      ["r-cart(30)", "w-order(8)"] :=
  ⟨rfl, by decide⟩

/-- Claim C6: `save_offer_code` returns exactly two writes, `offerCode`
then `offer`, both keyed by the same identifier (rendered
`["w-offerCode(758)", "w-offer(758)"]` for id 758), and
`lookup_offer_by_code` returns a single read of `offer(code)` and no
writes. -/
theorem save_and_get_offer_trace (offer_code code : Nat) :
    (save_offer_code offer_code).ops =
      [⟨Kind.Write, "offerCode(" ++ toString offer_code ++ ")"⟩,
       ⟨Kind.Write, "offer(" ++ toString offer_code ++ ")"⟩] ∧
    (lookup_offer_by_code code).ops =
      [⟨Kind.Read, "offer(" ++ toString code ++ ")"⟩] ∧
    (save_offer_code 758).render = ["w-offerCode(758)", "w-offer(758)"] :=
  ⟨rfl, rfl, by decide⟩

/-- Claim C7 counterexample: the code performs no validation at all.  A
negative or zero batch count makes `decrement_SKU_sim` silently return an
empty batch of traces, and an empty sku-batch makes `decrement_sku`
silently return an empty trace; no invalid-argument rejection happens
anywhere. -/
theorem no_validation_counterexample :
    decrement_SKU_sim (-3) (fun i => [88, 25, 66, 57]) = [] ∧
    decrement_SKU_sim 0 (fun i => [88, 25, 66, 57]) = [] ∧
    (decrement_sku ([] : List Nat) ()).ops = [] :=
  ⟨rfl, rfl, rfl⟩

/-- Claim C7 amended: a non-positive batch count makes the simulation
entry point silently produce an empty batch of traces, and an empty
sku-batch makes `decrement_sku` silently produce an empty trace; no
invalid-argument rejection occurs at the harness boundary. -/
theorem silent_empty_on_malformed_config {γ : Type} (n : Int) (hn : n ≤ 0)
    (sample : Nat → List Nat) (context : γ) :
    decrement_SKU_sim n sample = [] ∧
    (decrement_sku ([] : List Nat) context).ops = [] := by
  constructor
  · unfold decrement_SKU_sim
    rw [Int.toNat_of_nonpos hn]
    rfl
  · rfl

theorem silent_empty_on_malformed_config_witness :
    (-1 : Int) ≤ 0 ∧
    (decrement_SKU_sim (-1) (fun i => []) = [] ∧
     (decrement_sku ([] : List Nat) ()).ops = []) :=
  ⟨by decide, silent_empty_on_malformed_config (-1) (by decide) (fun i => []) ()⟩

/-- Claim C8 counterexample: not every key embeds a sampled identifier,
and the trace shape is not fixed for every template.  The second
Order-payment operation carries the constant sentinel key
`unconfirmed type` no matter which identifiers were sampled, and two
Next-id invocations with the same sampled id-type but different coins
produce traces of different lengths. -/
theorem fixed_shape_counterexample :
    (create_order_payment_from_customer_payment 162 457 (224 : Nat)).ops[1]? =
      some ⟨Kind.Write, "unconfirmed type"⟩ ∧
    (create_order_payment_from_customer_payment 861 86 (134 : Nat)).ops[1]? =
      some ⟨Kind.Write, "unconfirmed type"⟩ ∧
    (find_next_id 5 () 1).ops.length = 3 ∧
    (find_next_id 5 () 0).ops.length = 2 :=
  ⟨rfl, rfl, rfl, rfl⟩

/-- Claim C8 amended: per template, the kind sequence and the key-name
patterns are fixed and every key embeds the sampled identifiers, except
that the second Order-payment key is the constant sentinel
`unconfirmed type` (it embeds no sampled value), and that Next-id's kind
sequence additionally depends on the Bernoulli coin (read, write, write
when the coin is 1, read, write otherwise). -/
theorem template_shape_and_keys {α β γ δ ε ζ : Type} [ToString δ]
    (cart_id order_id : Nat) (response : β) (chain : γ)
    (item_id : Nat) (type : α) (customer rating : Nat)
    (order customer_payment : Nat) (amount : δ)
    (offer_code code : Nat)
    (id_type : Nat) (batch_size : ε) (coin : Nat)
    (sku_quantities : List Nat) (context : ζ) :
    (do_filter_internal_unless_ignored (cart_id, order_id) response chain).ops.map
        Op.kind = [Kind.Read, Kind.Write] ∧
    (do_filter_internal_unless_ignored (cart_id, order_id) response chain).ops.map
        Op.key =
      ["cart(" ++ toString cart_id ++ ")", "order(" ++ toString order_id ++ ")"] ∧
    (rate_item item_id type customer rating).ops.map Op.kind =
      [Kind.Read, Kind.Read, Kind.Write, Kind.Write] ∧
    (rate_item item_id type customer rating).ops.map Op.key =
      ["summary(" ++ toString item_id ++ ")",
       "detail(" ++ toString customer ++ ")",
       "detail(" ++ toString customer ++ ")/rating(" ++ toString rating ++ ")",
       "summary(" ++ toString item_id ++ ")/rating(" ++ toString rating ++ ")"] ∧
    (create_order_payment_from_customer_payment order customer_payment amount).ops.map
        Op.kind = [Kind.Write, Kind.Write, Kind.Write, Kind.Write] ∧
    (create_order_payment_from_customer_payment order customer_payment amount).ops.map
        Op.key =
      ["amount(" ++ toString amount ++ ")",
       "unconfirmed type",
       "orderPayment((" ++ toString order ++ ", " ++ toString customer_payment ++ "))",
       "customerPayment(" ++ toString customer_payment ++ ")"] ∧
    (save_offer_code offer_code).ops.map Op.kind = [Kind.Write, Kind.Write] ∧
    (save_offer_code offer_code).ops.map Op.key =
      ["offerCode(" ++ toString offer_code ++ ")",
       "offer(" ++ toString offer_code ++ ")"] ∧
    (lookup_offer_by_code code).ops.map Op.kind = [Kind.Read] ∧
    (lookup_offer_by_code code).ops.map Op.key =
      ["offer(" ++ toString code ++ ")"] ∧
    (find_next_id id_type batch_size coin).ops.map Op.kind =
      (if coin = 1 then [Kind.Read, Kind.Write, Kind.Write]
        else [Kind.Read, Kind.Write]) ∧
    (find_next_id id_type batch_size coin).ops.map Op.key =
      (if coin = 1 then
        ["id(" ++ toString id_type ++ ")", "id(" ++ toString id_type ++ ")",
         "id(" ++ toString id_type ++ ")"]
        else ["id(" ++ toString id_type ++ ")", "id(" ++ toString id_type ++ ")"]) ∧
    (decrement_sku sku_quantities context).ops.map Op.kind =
      sku_quantities.flatMap (fun s => [Kind.Read, Kind.Write]) ∧
    (decrement_sku sku_quantities context).ops.map Op.key =
      sku_quantities.flatMap (fun s =>
        ["quantity(" ++ toString s ++ ")", "quantity(" ++ toString s ++ ")"]) := by
  refine ⟨rfl, rfl, rfl, rfl, rfl, rfl, rfl, rfl, rfl, rfl, ?_, ?_, ?_, ?_⟩
  · by_cases h : coin = 1 <;>
      simp [find_next_id, Transaction.append_read, Transaction.append_write, h]
  · by_cases h : coin = 1 <;>
      simp [find_next_id, Transaction.append_read, Transaction.append_write, h]
  · rw [decrement_sku_ops, List.map_flatMap]
    rfl
  · rw [decrement_sku_ops, List.map_flatMap]
    rfl

/-- Claim C9: `render` emits exactly one string per operation in insertion
order, `r-` prefixed for reads and `w-` for writes; it is a pure
projection of the operation sequence (equal sequences render equally, so
rendering twice with no intervening appends yields identical output); and
each `append_read` / `append_write` extends the sequence by exactly one
element. -/
theorem accessLog_contract :
    (∀ t : Transaction,
      t.render = t.ops.map (fun op =>
        (match op.kind with
          | Kind.Read => "r-"
          | Kind.Write => "w-") ++ op.key)) ∧
    (∀ t : Transaction, t.render.length = t.ops.length) ∧
    (∀ t u : Transaction, t.ops = u.ops → t.render = u.render) ∧
    (∀ (t : Transaction) (k : String),
      (t.append_read k).ops = t.ops ++ [⟨Kind.Read, k⟩] ∧
      (t.append_write k).ops = t.ops ++ [⟨Kind.Write, k⟩]) := by
  refine ⟨fun t => rfl, fun t => ?_, fun t u h => ?_, fun t k => ⟨rfl, rfl⟩⟩
  · simp [Transaction.render]
  · unfold Transaction.render
    rw [h]

theorem accessLog_contract_witness :
    ((⟨[]⟩ : Transaction).append_read "offer(934)").ops =
      (⟨[⟨Kind.Read, "offer(934)"⟩]⟩ : Transaction).ops ∧
    ((⟨[]⟩ : Transaction).append_read "offer(934)").render =
      (⟨[⟨Kind.Read, "offer(934)"⟩]⟩ : Transaction).render :=
  ⟨rfl, accessLog_contract.2.2.1 _ _ rfl⟩

/-- Claim C10: the unused template parameters have no influence on the
output: `rate_item` is independent of `type`, `decrement_sku` of
`context`, `find_next_id` (with the coin fixed) of `batch_size`, and
`do_filter_internal_unless_ignored` of `response` and `chain`. -/
theorem unused_parameters_irrelevant {α α' β β' γ γ' δ δ' ε ε' : Type}
    (item_id customer rating : Nat) (ty : α) (ty' : α')
    (sku_quantities : List Nat) (c : γ) (c' : γ')
    (id_type : Nat) (bs : β) (bs' : β') (coin : Nat)
    (request : Nat × Nat) (resp : δ) (resp' : δ') (ch : ε) (ch' : ε') :
    rate_item item_id ty customer rating = rate_item item_id ty' customer rating ∧
    decrement_sku sku_quantities c = decrement_sku sku_quantities c' ∧
    find_next_id id_type bs coin = find_next_id id_type bs' coin ∧
    do_filter_internal_unless_ignored request resp ch =
      do_filter_internal_unless_ignored request resp' ch' :=
  ⟨rfl, rfl, rfl, rfl⟩

end TransactionSim
